import Mathlib

/-!
# Verification of the CAN message tool bus core

A shallow embedding of the backend core of the `canMessageTool` repository
(`backend/decoder.py`, `backend/bus.py`, `backend/app.py`), together with
theorems settling the frozen specification claims about it.

Conventions of the embedding:
* Python `int` is `Int` (arbitrary precision); byte values are `Nat` with an
  explicit `< 256` bound where it matters.
* Python `float` arithmetic is idealised as `ℚ`; `round(x, 3)` is modelled as
  exact half-to-even rounding at three decimal places (`pyRound3`).
* Fallible Python code is `Except PyErr _`; reading an attribute that the
  object does not have is `PyErr.attributeError`, mirroring CPython.
* Mutable objects become explicit state records; each method is a function of
  that state.
-/

/-- Errors a modelled Python call can raise. -/
inductive PyErr where
  | attributeError
  | runtimeError (msg : String)
  | valueError (msg : String)
  deriving DecidableEq, Repr

/-- Rendering of an exception by `str(e)`, as used by the error reporters. -/
def pyErrMsg : PyErr → String
  | .attributeError => "AttributeError"
  | .runtimeError m => m
  | .valueError m => m

/-- A captured CAN frame (`Frame` dataclass in `backend/bus.py`): timestamp,
identifier as a hex string, payload bytes. -/
structure Frame where
  ts : ℚ
  id_hex : String
  data : List Nat
  deriving DecidableEq, Repr

/-- `data.hex().upper()` (`safe_hex` in `backend/decoder.py`): payload bytes as
an uppercase hex string, two digits per byte. -/
def hexDigitChar (n : Nat) : Char :=
  if n < 10 then Char.ofNat (48 + n) else Char.ofNat (55 + n)

/-- Uppercase two-digit hex rendering of one byte. -/
def byteHex (b : Nat) : List Char :=
  [hexDigitChar ((b / 16) % 16), hexDigitChar (b % 16)]

/-- `bytes.hex().upper()` over the whole payload. -/
def safe_hex (data : List Nat) : String :=
  ⟨data.foldr (fun b acc => byteHex b ++ acc) []⟩

/-- ASCII uppercasing of a string, as `str.upper()` behaves on hex text. -/
def strUpper (s : String) : String := ⟨s.toList.map Char.toUpper⟩

/-- Value of one hex digit character, if it is one. -/
def hexDigit? (c : Char) : Option Nat :=
  if '0' ≤ c ∧ c ≤ '9' then some (c.toNat - 48)
  else if 'a' ≤ c ∧ c ≤ 'f' then some (c.toNat - 87)
  else if 'A' ≤ c ∧ c ≤ 'F' then some (c.toNat - 55)
  else none

/-- Value of one decimal digit character, if it is one. -/
def decDigit? (c : Char) : Option Nat :=
  if '0' ≤ c ∧ c ≤ '9' then some (c.toNat - 48) else none

/-- Accumulate digits of the given base; at least one digit is required. -/
def parseDigitsAux (digit? : Char → Option Nat) (base : Nat) :
    List Char → Nat → Option Nat
  | [], acc => some acc
  | c :: rest, acc =>
    match digit? c with
    | some d => parseDigitsAux digit? base rest (acc * base + d)
    | none => none

/-- Parse a nonempty all-digit string in the given base. -/
def parseDigits (digit? : Char → Option Nat) (base : Nat) :
    List Char → Option Nat
  | [] => none
  | l => parseDigitsAux digit? base l 0

/-- Strip leading and trailing whitespace, as `str.strip()` does before
`int()` parses. -/
def pyStripChars (l : List Char) : List Char :=
  ((l.dropWhile Char.isWhitespace).reverse.dropWhile Char.isWhitespace).reverse

/-- Drop an optional `0x`/`0X` prefix (hex parsing only). -/
def stripHexPrefix : List Char → List Char
  | '0' :: c :: rest => if c = 'x' ∨ c = 'X' then rest else '0' :: c :: rest
  | l => l

/-- Core of Python `int(s, base)` for base 10 and 16: optional surrounding
whitespace, optional sign, for base 16 an optional `0x` prefix, then at least
one digit.  (Underscore digit separators, which never occur in this
repository, are not modelled.) -/
def pyIntCore (digit? : Char → Option Nat) (base : Nat) (hexPre : Bool)
    (s : String) : Option Int :=
  let body := pyStripChars s.toList
  let signed : Bool × List Char :=
    match body with
    | '+' :: rest => (false, rest)
    | '-' :: rest => (true, rest)
    | rest => (false, rest)
  let digitsPart := if hexPre then stripHexPrefix signed.2 else signed.2
  (parseDigits digit? base digitsPart).map fun n =>
    if signed.1 then -(n : Int) else (n : Int)

/-- Python `int(s, 16)`, as `decode_frame` and the senders use on `id_hex`. -/
def pyIntHex (s : String) : Option Int := pyIntCore hexDigit? 16 true s

/-- Python `int(s)` (base 10), as the intrepid channel-index parse uses. -/
def pyIntDec (s : String) : Option Int := pyIntCore decDigit? 10 false s

/-- Python `bytes.fromhex`: pairs of hex digits, ASCII spaces between bytes
allowed. -/
def parseHexBytesAux : List Char → Option (List Nat)
  | [] => some []
  | [_] => none
  | c1 :: c2 :: rest =>
    match hexDigit? c1, hexDigit? c2 with
    | some h, some l => (parseHexBytesAux rest).map fun bs => (h * 16 + l) :: bs
    | _, _ => none

/-- `bytes.fromhex(s)` on a payload-hex string. -/
def parseHexBytes (s : String) : Option (List Nat) :=
  parseHexBytesAux (s.toList.filter (· ≠ ' '))

/-- Python `s.startswith(pre)`. -/
def pyStartsWith (s pre : String) : Bool := pre.toList.isPrefixOf s.toList

/-- Engine of Python `s.replace(pat, "")`: delete every non-overlapping
occurrence of `pat`, scanning left to right.  The fuel argument (instantiated
with the string length, enough because every step consumes at least one
character) only makes the recursion structural. -/
def replaceDelAux (pat : List Char) : Nat → List Char → List Char
  | _, [] => []
  | 0, l => l
  | fuel + 1, c :: rest =>
    if pat.isPrefixOf (c :: rest) ∧ 1 ≤ pat.length then
      replaceDelAux pat fuel (rest.drop (pat.length - 1))
    else c :: replaceDelAux pat fuel rest

/-- Python `s.replace(pat, "")`. -/
def pyReplaceDel (s pat : String) : String :=
  ⟨replaceDelAux pat.toList s.toList.length s.toList⟩

/-- Round a rational to the nearest integer, ties to even — the rounding of
Python `round` (banker rounding). -/
def roundHalfEven (q : ℚ) : ℤ :=
  let f := ⌊q⌋
  let r := q - f
  if r < 1 / 2 then f
  else if 1 / 2 < r then f + 1
  else if f % 2 = 0 then f else f + 1

/-- Python `round(x, 3)`: half-to-even rounding at three decimal places. -/
def pyRound3 (q : ℚ) : ℚ := (roundHalfEven (q * 1000) : ℚ) / 1000

/-- A decoded signal value: a number, or the "N/A" (not available) sentinel
string the decoder emits. -/
inductive SigVal where
  | num (q : ℚ)
  | na
  deriving DecidableEq, Repr

/-- `_u16(lo, hi)` from `backend/decoder.py`: `(hi << 8) | lo`. -/
def u16 (lo hi : Nat) : Nat := (hi <<< 8) ||| lo

/-- Result record of `decode_frame`. -/
structure DecodeResult where
  pgn : Option Nat
  sa : Option Nat
  decoded : List (String × SigVal)
  deriving DecidableEq, Repr

/-- The signal-extraction body of `decode_frame` (`backend/decoder.py`,
lines 22-56): the sequential chain of `if pgn == ...` blocks, each appending
its fields to the decoded mapping in source order.  `b` is the padded payload;
absent indices read as 0 (they are never reached on 8-byte payloads). -/
def decodeSignals (pgn : Nat) (b : List Nat) : List (String × SigVal) :=
  let g := fun i => b.getD i 0
  let d : List (String × SigVal) := []
  let d := if pgn = 65253 then
      let raw := g 0 ||| (g 1 <<< 8) ||| (g 2 <<< 16) ||| (g 3 <<< 24)
      d ++ [("Engine Hours (h)",
        if (b.take 4).contains 255 then .na
        else .num (pyRound3 ((raw : ℚ) * 0.05)))]
    else d
  let d := if pgn = 65262 then
      d ++ [("Coolant Temp (°C)",
               if g 0 = 255 then .na else .num ((g 0 : ℚ) - 40)),
            ("Fuel Temp (°C)",
               if g 1 = 255 then .na else .num ((g 1 : ℚ) - 40)),
            ("Oil Temp (°C)",
               if g 2 = 255 ∨ g 3 = 255 then .na
               else .num (pyRound3 ((u16 (g 2) (g 3) : ℚ) / 32.0 - 273.0)))]
    else d
  let d := if pgn = 65263 then
      d ++ [("Fuel Delivery Pressure (kPa)",
               if g 0 = 255 then .na else .num ((g 0 : ℚ) * 4)),
            ("Engine Oil Pressure (kPa)",
               if g 3 = 255 then .na else .num ((g 3 : ℚ) * 4)),
            ("Coolant Pressure (kPa)",
               if g 6 = 255 then .na else .num ((g 6 : ℚ) * 2)),
            ("Coolant Level (%)",
               if g 7 = 255 then .na else .num (pyRound3 ((g 7 : ℚ) * 0.4)))]
    else d
  let d := if pgn = 65272 then
      d ++ [("Trans Oil Pressure (kPa)",
               if g 3 = 255 then .na else .num ((g 3 : ℚ) * 16)),
            ("Trans Oil Temp (°C)",
               if g 4 = 255 ∨ g 5 = 255 then .na
               else .num (pyRound3 ((u16 (g 4) (g 5) : ℚ) / 32.0 - 273.0)))]
    else d
  let d := if pgn = 65266 then
      d ++ [("Fuel Rate (L/h)",
               if g 0 = 255 ∨ g 1 = 255 then .na
               else .num (pyRound3 ((u16 (g 0) (g 1) : ℚ) * 0.05))),
            ("Avg Fuel Economy (km/L)",
               if g 4 = 255 ∨ g 5 = 255 then .na
               else .num (pyRound3 ((u16 (g 4) (g 5) : ℚ) / 512.0)))]
    else d
  let d := if pgn = 65276 then
      d ++ [("Fuel Level (%)",
               if g 1 = 255 then .na else .num (pyRound3 ((g 1 : ℚ) * 0.4)))]
    else d
  let d := if pgn = 61443 then
      d ++ [("Engine Load (%)",
               if g 2 = 255 then .na else .num ((g 2 : ℚ) * 1))]
    else d
  d

/-- The payload right-zero-padded to (at least) 8 bytes:
`list(fr.data) + [0]*(8-len(fr.data))` — natural subtraction matches the
empty Python list repetition for longer payloads. -/
def paddedData (fr : Frame) : List Nat :=
  fr.data ++ List.replicate (8 - fr.data.length) 0

/-- `decode_frame` (`backend/decoder.py`, lines 12-57).  The identifier hex
string is parsed; failure yields the all-null result.  The J1939 identifier
split uses Python floor shifts and masks, here `Int.fdiv`/`Int.emod`, which
agree with Python `>>`/`& 0xFF` on every (also negative) integer. -/
def decode_frame (fr : Frame) : DecodeResult :=
  match pyIntHex fr.id_hex with
  | none => { pgn := none, sa := none, decoded := [] }
  | some arb =>
    let pdu_format : Nat := ((arb.fdiv 65536).emod 256).toNat
    let pdu_specific : Nat := ((arb.fdiv 256).emod 256).toNat
    let sa : Nat := (arb.emod 256).toNat
    let pgn : Nat :=
      if 240 ≤ pdu_format then (pdu_format <<< 8) ||| pdu_specific
      else pdu_format <<< 8
    { pgn := some pgn, sa := some sa, decoded := decodeSignals pgn (paddedData fr) }

/-- The PGNs of the §4.1 table. -/
def supportedPGNs : List Nat := [65253, 65262, 65263, 65272, 65266, 65276, 61443]

/-- Little-endian 16-bit word at bytes `i, i+1`, as the specification table
words it. -/
def u16le (b : List Nat) (i : Nat) : Nat := b.getD i 0 + 256 * b.getD (i + 1) 0

/-- Little-endian 32-bit word at bytes `0..3`, as the specification table
words it. -/
def u32le (b : List Nat) : Nat :=
  b.getD 0 0 + 256 * b.getD 1 0 + 65536 * b.getD 2 0 + 16777216 * b.getD 3 0

/-- One field of the specification table: the sentinel test over the byte
range decides "N/A", otherwise the transform result rounded to 3 decimals. -/
def tableField (sentinel : Bool) (v : ℚ) : SigVal :=
  if sentinel then .na else .num (pyRound3 v)

/-- The per-PGN field table of specification §4.1, taken at its word: for each
listed PGN the listed fields, each read from the listed 0-based byte indices
of the padded payload, transformed by the listed formula and rounded to three
decimals — except Engine Load, which passes the raw byte through — and "N/A"
whenever a byte of the field range is `0xFF`.  Unlisted PGNs map to nothing. -/
def tableSignals (pgn : Nat) (b : List Nat) : List (String × SigVal) :=
  if pgn = 65253 then
    [("Engine Hours (h)",
        tableField (b.getD 0 0 = 255 ∨ b.getD 1 0 = 255 ∨ b.getD 2 0 = 255 ∨
          b.getD 3 0 = 255 : Bool) ((u32le b : ℚ) * 0.05))]
  else if pgn = 65262 then
    [("Coolant Temp (°C)", tableField (b.getD 0 0 = 255 : Bool) ((b.getD 0 0 : ℚ) - 40)),
     ("Fuel Temp (°C)", tableField (b.getD 1 0 = 255 : Bool) ((b.getD 1 0 : ℚ) - 40)),
     ("Oil Temp (°C)",
        tableField (b.getD 2 0 = 255 ∨ b.getD 3 0 = 255 : Bool)
          ((u16le b 2 : ℚ) / 32 - 273))]
  else if pgn = 65263 then
    [("Fuel Delivery Pressure (kPa)",
        tableField (b.getD 0 0 = 255 : Bool) ((b.getD 0 0 : ℚ) * 4)),
     ("Engine Oil Pressure (kPa)",
        tableField (b.getD 3 0 = 255 : Bool) ((b.getD 3 0 : ℚ) * 4)),
     ("Coolant Pressure (kPa)",
        tableField (b.getD 6 0 = 255 : Bool) ((b.getD 6 0 : ℚ) * 2)),
     ("Coolant Level (%)",
        tableField (b.getD 7 0 = 255 : Bool) ((b.getD 7 0 : ℚ) * 0.4))]
  else if pgn = 65272 then
    [("Trans Oil Pressure (kPa)",
        tableField (b.getD 3 0 = 255 : Bool) ((b.getD 3 0 : ℚ) * 16)),
     ("Trans Oil Temp (°C)",
        tableField (b.getD 4 0 = 255 ∨ b.getD 5 0 = 255 : Bool)
          ((u16le b 4 : ℚ) / 32 - 273))]
  else if pgn = 65266 then
    [("Fuel Rate (L/h)",
        tableField (b.getD 0 0 = 255 ∨ b.getD 1 0 = 255 : Bool)
          ((u16le b 0 : ℚ) * 0.05)),
     ("Avg Fuel Economy (km/L)",
        tableField (b.getD 4 0 = 255 ∨ b.getD 5 0 = 255 : Bool)
          ((u16le b 4 : ℚ) / 512))]
  else if pgn = 65276 then
    [("Fuel Level (%)",
        tableField (b.getD 1 0 = 255 : Bool) ((b.getD 1 0 : ℚ) * 0.4))]
  else if pgn = 61443 then
    [("Engine Load (%)",
        if (b.getD 2 0 = 255 : Bool) then .na else .num (b.getD 2 0 : ℚ))]
  else []

/-! ## Bus layer: backends, queues, manager state -/

/-- A Python dict value occurring in the bus-layer result records. -/
inductive PyVal where
  | str (s : String)
  | nat (n : Nat)
  | bool (b : Bool)
  | num (q : ℚ)
  deriving DecidableEq, Repr

/-- Result records and health snapshots: key/value lists in insertion order. -/
abbrev PyDict := List (String × PyVal)

/-- `dict.update` for one key: replace an existing binding in place, else
append. -/
def dictSet (d : PyDict) (k : String) (v : PyVal) : PyDict :=
  if d.any (fun kv => kv.1 = k) then
    d.map (fun kv => if kv.1 = k then (k, v) else kv)
  else d ++ [(k, v)]

/-- `base.update(other)`: fold every binding of `other` into `base`. -/
def dictUpdate (base other : PyDict) : PyDict :=
  other.foldl (fun acc kv => dictSet acc kv.1 kv.2) base

/-- Capacity of every backend receive queue (`queue.Queue(maxsize=10000)`). -/
def rxCapacity : Nat := 10000

/-- One enqueue by the SocketCAN capture loop (`_SocketCANBus._start_rx`,
`backend/bus.py` lines 115-126): `put_nowait`; on `queue.Full` one
`get_nowait` discards the oldest frame, then `put_nowait` again (the second
`Full`, impossible with a single producer, would drop the frame). -/
def socketcan_rx_enqueue (q : List Frame) (f : Frame) : List Frame :=
  if q.length < rxCapacity then q ++ [f]
  else
    let q1 := q.drop 1
    if q1.length < rxCapacity then q1 ++ [f] else q1

/-- Enqueue of one received batch by the Intrepid capture loop
(`_IntrepidBus._start_rx`, `backend/bus.py` lines 220-233): plain
`put_nowait` per frame with no `queue.Full` handler — the exception is caught
by the outer `except Exception` of the loop body, so the frame is lost and
the remaining frames of the batch are skipped. -/
def intrepid_rx_enqueue_batch (q : List Frame) : List Frame → List Frame
  | [] => q
  | f :: rest =>
    if q.length < rxCapacity then intrepid_rx_enqueue_batch (q ++ [f]) rest
    else q

/-- What a drop-oldest enqueue would retain, as the claim words it: on a full
queue exactly the oldest frame is evicted and the newest is kept. -/
def dropOldestEnqueue (q : List Frame) (f : Frame) : List Frame :=
  if q.length < rxCapacity then q ++ [f] else q.drop 1 ++ [f]

/-- An open backend as the manager sees it: its receive queue, and oracles
for the driver-dependent outcomes of `send` and `health`. -/
structure Backend where
  queue : List Frame
  sendFn : String → String → Except PyErr Unit
  healthFn : Except PyErr PyDict

/-- `read_batch(max_items)` of both backend classes: drain up to `max_items`
frames from the front of the receive queue, never blocking. -/
def read_batch (q : List Frame) (maxItems : Nat) : List Frame × List Frame :=
  (q.take maxItems, q.drop maxItems)

/-- The `BusManager` attribute state.  `__init__` (`backend/bus.py` lines
374-403) assigns only `_impl` and `_impl_name`; an outer `none` on `lock`,
`bus` or `info` means the attribute was never assigned, so reading it raises
`AttributeError`. -/
structure BMState where
  impl : Option String
  implName : Option String
  lock : Option Unit
  bus : Option (Option Backend)
  info : Option PyDict

/-- `BusManager.__init__`: the platform probe.  The SocketCAN and Intrepid
probe constructors are called without their required positional arguments,
so both raise `TypeError` and are swallowed; only the Windows Kvaser branch
(`_KvaserBus()` takes no arguments) ever assigns `_impl`.  `_lock`, `_bus`
and `_info` are never assigned. -/
def busManagerInit (isWindows hasPythonCan : Bool) : BMState :=
  { impl := if isWindows && hasPythonCan then some "kvaser" else none
    implName := if isWindows && hasPythonCan then some "kvaser" else none
    lock := none
    bus := none
    info := none }

/-- Backend choice made inside `BusManager.connect` (`backend/bus.py` lines
450-471), by channel-name prefix alone. -/
inductive BackendChoice where
  | intrepidB (idx : Int)
  | socketcanB (channel : String)
  | kvaserB (idx : Int)
  | noBackend (msg : String)
  deriving DecidableEq, Repr

/-- The `connect` routing decision: `channel.startswith("intrepid")` selects
the Intrepid variant with index `int(channel.replace("intrepid","") or "0")`
(an unparsable index is the raised-and-caught failure); every other channel
goes to the SocketCAN variant when python-can is importable, else connect
fails.  The construction-time probe result is accepted as an argument and —
exactly as in the source, which never reads `self._impl` here — ignored. -/
def connect_select (probe : Option String) (hasPycan : Bool)
    (channel : String) : BackendChoice :=
  let _ := probe
  if pyStartsWith channel "intrepid" then
    let t := pyReplaceDel channel "intrepid"
    match pyIntDec (if t = "" then "0" else t) with
    | some i => .intrepidB i
    | none => .noBackend "invalid intrepid index"
  else if hasPycan then .socketcanB channel
  else .noBackend "python-can not available"

/-- `BusManager.connect` (`backend/bus.py` lines 441-484) over the attribute
state.  `async with self._lock` reads `_lock` first; the unconditional
`_disconnect_no_lock()` then reads `_bus`; both raise `AttributeError` when
unassigned.  `openResult` is the driver oracle for `Backend.open()`. -/
def bm_connect (s : BMState) (hasPycan : Bool) (channel : String)
    (openResult : Except PyErr Backend) (now : ℚ) :
    Except PyErr (BMState × Bool × String) :=
  match s.lock with
  | none => .error .attributeError
  | some _ =>
    match s.bus with
    | none => .error .attributeError
    | some oldBus =>
      -- _disconnect_no_lock: close the old backend (errors swallowed), clear
      let s1 := match oldBus with
        | some _ => { s with bus := some none, info := some [] }
        | none => s
      match connect_select s.impl hasPycan channel with
      | .intrepidB idx =>
        (match openResult with
         | .ok b =>
           .ok ({ s1 with
                    bus := some (some b)
                    info := some [("driver", .str "intrepid"),
                                  ("device", .str ""),
                                  ("channel", .str ("intrepid" ++ toString idx)),
                                  ("connected_at", .num now)] },
                true, "connected (intrepid)")
         | .error e =>
           .ok ({ s1 with bus := some none, info := some [] },
                false, pyErrMsg e))
      | .socketcanB ch =>
        (match openResult with
         | .ok b =>
           .ok ({ s1 with
                    bus := some (some b)
                    info := some [("driver", .str "socketcan"),
                                  ("channel", .str ch),
                                  ("connected_at", .num now)] },
                true, "connected (socketcan)")
         | .error e =>
           .ok ({ s1 with bus := some none, info := some [] },
                false, pyErrMsg e))
      | .kvaserB _ =>
        -- unreachable: connect_select never produces the Kvaser variant
        .ok (s1, false, "unreachable")
      | .noBackend msg =>
        (if pyStartsWith channel "intrepid" then
          .ok ({ s1 with bus := some none, info := some [] }, false, msg)
         else
          -- the python-can guard returns before the try block, state kept
          .ok (s1, false, msg))

/-- `BusManager.disconnect` (`backend/bus.py` lines 486-488). -/
def bm_disconnect (s : BMState) : Except PyErr BMState :=
  match s.lock with
  | none => .error .attributeError
  | some _ =>
    match s.bus with
    | none => .error .attributeError
    | some (some _) => .ok { s with bus := some none, info := some [] }
    | some none => .ok s

/-- `_SocketCANBus.send` / `_IntrepidBus.send`: parse the identifier hex,
parse the payload hex, then hand to the driver (its outcome is the
`sendFn` oracle of the backend). -/
def backend_send (b : Backend) (idh datah : String) : Except PyErr Unit :=
  match pyIntHex idh with
  | none => .error (.valueError "invalid identifier hex")
  | some _ =>
    match parseHexBytes datah with
    | none => .error (.valueError "non-hexadecimal payload")
    | some _ => b.sendFn idh datah

/-- `BusManager.send` (`backend/bus.py` lines 492-495): raises
`RuntimeError("Not connected")` with no open backend, else delegates. -/
def bm_send (s : BMState) (idh datah : String) : Except PyErr Unit :=
  match s.bus with
  | none => .error .attributeError
  | some none => .error (.runtimeError "Not connected")
  | some (some b) => backend_send b idh datah

/-- One item of the `/api/send` batch loop (`backend/app.py` lines 168-174):
`try` the send and report `ok`, `except` anything and report a structured
failure for that item. -/
def sendItemResult (s : BMState) (item : String × String) : PyDict :=
  match bm_send s item.1 item.2 with
  | .ok _ => [("id_hex", .str item.1), ("ok", .bool true)]
  | .error e =>
    [("id_hex", .str item.1), ("ok", .bool false), ("error", .str (pyErrMsg e))]

/-- The `/api/send` route body: the sequential for-loop over the requested
frames, appending one result per item. -/
def send_route (s : BMState) : List (String × String) → List PyDict
  | [] => []
  | item :: rest => sendItemResult s item :: send_route s rest

/-- `BusManager.get_rx_batch` poll loop (`backend/bus.py` lines 502-512) in
discrete ~10ms ticks: while the deadline has not passed, `read_batch`; a
nonempty batch is collected and the loop breaks; an empty one sleeps, during
which `arr t` frames arrive in the queue.  `fuel` is the number of whole
ticks until the deadline. -/
def getRxBatchLoop (arr : Nat → List Frame) (maxItems : Nat) :
    Nat → Nat → List Frame → List Frame
  | _, 0, _ => []
  | t, fuel + 1, q =>
    let batch := (read_batch q maxItems).1
    if batch.isEmpty then
      getRxBatchLoop arr maxItems (t + 1) fuel ((read_batch q maxItems).2 ++ arr t)
    else batch

/-- `BusManager.get_rx_batch`: a non-positive timeout never enters the loop;
otherwise the first loop iteration reads `self._bus`. -/
def bm_get_rx_batch (s : BMState) (arr : Nat → List Frame)
    (fuel maxItems : Nat) : Except PyErr (List Frame) :=
  match fuel with
  | 0 => .ok []
  | _ + 1 =>
    match s.bus with
    | none => .error .attributeError
    | some none => .ok []
    | some (some b) => .ok (getRxBatchLoop arr maxItems 0 fuel b.queue)

/-- The batch collection that the claim describes: keep polling and
accumulating frames until `max_items` have been collected or the timeout
elapses, then return whatever was collected. -/
def rxBatchAsClaimed (arr : Nat → List Frame) (maxItems : Nat) :
    Nat → Nat → List Frame → List Frame → List Frame
  | _, 0, _, acc => acc
  | t, fuel + 1, q, acc =>
    let batch := (read_batch q (maxItems - acc.length)).1
    let acc1 := acc ++ batch
    if maxItems ≤ acc1.length then acc1
    else rxBatchAsClaimed arr maxItems (t + 1) fuel
      ((read_batch q (maxItems - acc.length)).2 ++ arr t) acc1

/-- First-nonempty-poll semantics: the loop returns the head batch of the
first tick at which the queue holds any frame (at most `maxItems` of them),
and `[]` if no tick before the deadline does. -/
def firstNonemptyPoll (arr : Nat → List Frame) (maxItems : Nat) :
    Nat → Nat → List Frame → List Frame
  | _, 0, _ => []
  | t, fuel + 1, q =>
    if (q.take maxItems).isEmpty then
      firstNonemptyPoll arr maxItems (t + 1) fuel (q.drop maxItems ++ arr t)
    else q.take maxItems

/-- `BusManager.health_snapshot` (`backend/bus.py` lines 516-528).  With no
`_bus` attribute the lookup raises; with `_bus = None` the disconnected
object is returned; otherwise `_info` and the backend health are merged into
the base — each in a `try`/`except Exception: pass`, so a raising health
call is silently skipped. -/
def bm_health_snapshot (s : BMState) : Except PyErr PyDict :=
  match s.bus with
  | none => .error .attributeError
  | some none => .ok [("status", .str "disconnected")]
  | some (some b) =>
    let base : PyDict := [("status", .str "connected")]
    let base := match s.info with
      | none => base
      | some i => dictUpdate base i
    let base := match b.healthFn with
      | .error _ => base
      | .ok h => dictUpdate base h
    .ok base

/-! ## Self-test (`BusManager.selftest`, `backend/bus.py` lines 530-578) -/

/-- The fixed sentinel identifier of the self-test. -/
def selftest_id_hex : String := "18F11CEF"

/-- The fixed sentinel payload of the self-test. -/
def selftest_data_hex : String := "A55A55A55A55A55A"

/-- The echo match of the self-test poll loop:
`fr.id_hex.upper() == test_id_hex and fr.data.hex().upper() == test_data_hex`
— a case-insensitive hex comparison on both identifier and payload. -/
def isSentinelFrame (fr : Frame) : Bool :=
  strUpper fr.id_hex == selftest_id_hex && safe_hex fr.data == selftest_data_hex

/-- The echo-wait loop of `selftest`: each ~10ms tick `read_batch(1000)`
frames are taken, all of them counted into `rx_seen`, and the tick's batch
is scanned for the sentinel; a hit stops the loop.  While the loop sleeps,
the capture thread appends `arr t` to the queue. -/
def selftestLoop (arr : Nat → List Frame) :
    Nat → Nat → List Frame → Nat → Bool × Nat
  | _, 0, _, seen => (false, seen)
  | t, fuel + 1, q, seen =>
    let batch := (read_batch q 1000).1
    let seen1 := seen + batch.length
    if batch.any isSentinelFrame then (true, seen1)
    else selftestLoop arr (t + 1) fuel ((read_batch q 1000).2 ++ arr t) seen1

/-- The connected path of `selftest`: drain up to 10000 stale frames
(result discarded, errors ignored), send the sentinel (a raising send
reports `tx_ok: false` with the error), then run the echo-wait loop and
report the result record. -/
def selftest_connected (b : Backend) (arr : Nat → List Frame) (fuel : Nat) :
    PyDict :=
  let q1 := (read_batch b.queue 10000).2
  match b.sendFn selftest_id_hex selftest_data_hex with
  | .error e =>
    [("connected", .bool true), ("tx_ok", .bool false),
     ("error", .str (pyErrMsg e))]
  | .ok _ =>
    let r := selftestLoop arr 0 fuel q1 0
    [("connected", .bool true), ("tx_ok", .bool true),
     ("echo_rx", .bool r.1), ("rx_seen", .nat r.2),
     ("note", .str "Echo depends on loopback/other node.")]

/-- `BusManager.selftest`: reading the absent `_bus` attribute raises; a
`None` bus yields the not-connected record; otherwise the connected path
runs.  `fuel` is the number of whole ~10ms poll ticks in `timeout_ms`
(default 300ms). -/
def bm_selftest (s : BMState) (arr : Nat → List Frame) (fuel : Nat) :
    Except PyErr PyDict :=
  match s.bus with
  | none => .error .attributeError
  | some none => .ok [("connected", .bool false), ("reason", .str "not connected")]
  | some (some b) => .ok (selftest_connected b arr fuel)

/-! ## Connect teardown ordering (`BusManager.connect`, `backend/bus.py`)

The sequential await structure of `connect` under `self._lock` is modelled
as the ordered list of hardware/thread events it performs; a small state
machine counts open driver handles and running capture-loop threads. -/

/-- The externally visible events of the teardown/open sequence.  Backends
are named by numbers. -/
inductive BusEvent where
  | stopLoop (b : Nat)    -- `self._stop.set()` in `close()`
  | joinLoop (b : Nat)    -- `self._rx_thread.join(timeout=1)` in `close()`
  | shutdownHw (b : Nat)  -- `self.bus.shutdown()` / `self.dev.close()`
  | instantiate (b : Nat) -- `_SocketCANBus(...)` / `_IntrepidBus(...)`
  | openHw (b : Nat)      -- driver open inside `Backend.open()`
  | startLoop (b : Nat)   -- `self._start_rx()` at the end of `open()`
  deriving DecidableEq, Repr

/-- `Backend.close()` in event form: stop flag, join the capture thread,
shut the driver handle down — in that source order. -/
def closeEvents (b : Nat) : List BusEvent :=
  [.stopLoop b, .joinLoop b, .shutdownHw b]

/-- `BusManager.connect` in event form: with the lock held, first
`_disconnect_no_lock()` — which runs `close()` of any existing backend to
completion — then the new backend is constructed, its `open()` runs, and
`open()` starts the new capture loop as its final step. -/
def connectEvents (old : Option Nat) (new : Nat) : List BusEvent :=
  (match old with | some b => closeEvents b | none => []) ++
    [.instantiate new, .openHw new, .startLoop new]

/-- Which driver handles are open and which capture loops run. -/
structure CapState where
  openHws : List Nat
  loops : List Nat
  deriving DecidableEq, Repr

/-- Effect of one event: a join removes the loop, a shutdown removes the
handle, an open/start adds them; setting the stop flag and constructing an
unopened backend change nothing observable. -/
def applyEvent (s : CapState) : BusEvent → CapState
  | .stopLoop _ => s
  | .joinLoop b => { s with loops := s.loops.erase b }
  | .shutdownHw b => { s with openHws := s.openHws.erase b }
  | .instantiate _ => s
  | .openHw b => { s with openHws := s.openHws ++ [b] }
  | .startLoop b => { s with loops := s.loops ++ [b] }

/-- Every state the system passes through while an event list runs,
including the initial and final ones. -/
def statesOf (s0 : CapState) : List BusEvent → List CapState
  | [] => [s0]
  | e :: es => s0 :: statesOf (applyEvent s0 e) es

/-! ## Helper lemmas -/

/-- Bit-or with a shifted word is plain addition when the low part fits. -/
theorem lor_shiftLeft_eq_add {x : Nat} (y k : Nat) (h : x < 2 ^ k) :
    x ||| (y <<< k) = x + 2 ^ k * y := by
  apply Nat.eq_of_testBit_eq
  intro i
  rw [Nat.add_comm x (2 ^ k * y), Nat.testBit_mul_pow_two_add y h i]
  by_cases hik : i < k
  · have : ¬ k ≤ i := by omega
    simp [Nat.testBit_or, Nat.testBit_shiftLeft, this, hik]
  · have hk : k ≤ i := by omega
    have hx : x.testBit i = false :=
      Nat.testBit_lt_two_pow (lt_of_lt_of_le h (Nat.pow_le_pow_right (by norm_num) hk))
    simp [Nat.testBit_or, Nat.testBit_shiftLeft, hx, hik, hk]

/-- The or-shift chain of `decode_frame` for Engine Hours is the
little-endian 32-bit value. -/
theorem or_chain_eq_u32 {a0 a1 a2 a3 : Nat}
    (h0 : a0 < 256) (h1 : a1 < 256) (h2 : a2 < 256) :
    a0 ||| (a1 <<< 8) ||| (a2 <<< 16) ||| (a3 <<< 24) =
      a0 + 256 * a1 + 65536 * a2 + 16777216 * a3 := by
  have e1 : a0 ||| (a1 <<< 8) = a0 + 256 * a1 := by
    have := lor_shiftLeft_eq_add (x := a0) a1 8 (by norm_num [h0])
    simpa using this
  have b1 : a0 + 256 * a1 < 2 ^ 16 := by omega
  have e2 : a0 + 256 * a1 ||| (a2 <<< 16) = a0 + 256 * a1 + 65536 * a2 := by
    have := lor_shiftLeft_eq_add (x := a0 + 256 * a1) a2 16 b1
    simpa using this
  have b2 : a0 + 256 * a1 + 65536 * a2 < 2 ^ 24 := by omega
  have e3 : a0 + 256 * a1 + 65536 * a2 ||| (a3 <<< 24) =
      a0 + 256 * a1 + 65536 * a2 + 16777216 * a3 := by
    have := lor_shiftLeft_eq_add (x := a0 + 256 * a1 + 65536 * a2) a3 24 b2
    simpa using this
  rw [e1, e2, e3]

/-- `_u16` is the little-endian 16-bit value when the low byte fits. -/
theorem u16_eq_add {lo : Nat} (hi : Nat) (h : lo < 256) :
    u16 lo hi = lo + 256 * hi := by
  unfold u16
  rw [Nat.lor_comm]
  have := lor_shiftLeft_eq_add (x := lo) hi 8 (by norm_num [h])
  simpa using this

/-- Half-even rounding fixes integers. -/
theorem roundHalfEven_intCast (m : ℤ) : roundHalfEven (m : ℚ) = m := by
  unfold roundHalfEven
  norm_num

/-- `round(x, 3)` fixes integer values. -/
theorem pyRound3_intCast (m : ℤ) : pyRound3 (m : ℚ) = (m : ℚ) := by
  unfold pyRound3
  have : (m : ℚ) * 1000 = ((m * 1000 : ℤ) : ℚ) := by push_cast; ring
  rw [this, roundHalfEven_intCast]
  push_cast
  field_simp

/-- `round(x, 3)` fixes natural-number values. -/
theorem pyRound3_natCast (n : ℕ) : pyRound3 (n : ℚ) = (n : ℚ) := by
  have := pyRound3_intCast (n : ℤ)
  push_cast at this
  exact this

/-! ## Claim C10: the constructor initialization gap -/

/-- C10: on a freshly constructed `BusManager`, whatever the platform probe
found, every state-consulting operation — `connect`, `disconnect`, `send`,
`selftest`, `health_snapshot`, and `get_rx_batch` with a positive timeout
(at least one poll tick) — raises `AttributeError`, because `__init__`
assigns only `_impl` and `_impl_name` and never the `_lock`, `_bus` or
`_info` attributes those operations read. -/
theorem fresh_manager_attribute_errors
    (isWindows hasPythonCan hasPycan : Bool) (channel idh dh : String)
    (openR : Except PyErr Backend) (now : ℚ) (arr : Nat → List Frame)
    (fuel maxItems : Nat) :
    bm_connect (busManagerInit isWindows hasPythonCan) hasPycan channel openR now
        = .error .attributeError ∧
    bm_disconnect (busManagerInit isWindows hasPythonCan)
        = .error .attributeError ∧
    bm_send (busManagerInit isWindows hasPythonCan) idh dh
        = .error .attributeError ∧
    bm_selftest (busManagerInit isWindows hasPythonCan) arr fuel
        = .error .attributeError ∧
    bm_health_snapshot (busManagerInit isWindows hasPythonCan)
        = .error .attributeError ∧
    bm_get_rx_batch (busManagerInit isWindows hasPythonCan) arr (fuel + 1) maxItems
        = .error .attributeError :=
  ⟨rfl, rfl, rfl, rfl, rfl, rfl⟩

/-! ## Claim C2: health_snapshot totality -/

/-- C2 (code bug): `health_snapshot` does raise.  On a freshly constructed
`BusManager` the very first statement reads the never-assigned `_bus`
attribute, so the call raises `AttributeError` instead of returning the
"disconnected" object; and when a live backend's `health()` raises, the
error is silently discarded by `except Exception: pass` — the returned map
carries no `error` field at all (the connected snapshot below is exactly the
base merged with `_info`, with no extra binding). -/
theorem health_snapshot_raises_on_fresh_manager :
    (∀ isWindows hasPythonCan : Bool,
       bm_health_snapshot (busManagerInit isWindows hasPythonCan)
         = .error .attributeError) ∧
    (∀ (b : Backend) (e : PyErr), b.healthFn = .error e →
       bm_health_snapshot
           { impl := none, implName := none, lock := some (),
             bus := some (some b),
             info := some [("driver", .str "socketcan"),
                           ("channel", .str "vcan0"),
                           ("connected_at", .num 0)] }
         = .ok [("status", .str "connected"),
                ("driver", .str "socketcan"),
                ("channel", .str "vcan0"),
                ("connected_at", .num 0)]) := by
  constructor
  · intro _ _
    rfl
  · intro b e he
    simp only [bm_health_snapshot, he]
    rfl

/-- Witness for C2 at a concrete backend whose health call raises. -/
theorem health_snapshot_raises_on_fresh_manager_witness :
    bm_health_snapshot
        { impl := none, implName := none, lock := some (),
          bus := some (some { queue := [], sendFn := fun _ _ => .ok (),
                              healthFn := .error .attributeError }),
          info := some [("driver", .str "socketcan"),
                        ("channel", .str "vcan0"),
                        ("connected_at", .num 0)] }
      = .ok [("status", .str "connected"),
             ("driver", .str "socketcan"),
             ("channel", .str "vcan0"),
             ("connected_at", .num 0)] :=
  health_snapshot_raises_on_fresh_manager.2
    { queue := [], sendFn := fun _ _ => .ok (),
      healthFn := .error .attributeError } .attributeError rfl

/-! ## Claim C7: per-item send results, selftest when not connected -/

/-- The send loop is a pointwise map: one result per requested frame. -/
theorem send_route_eq_map (s : BMState) :
    ∀ items : List (String × String),
      send_route s items = items.map (sendItemResult s)
  | [] => rfl
  | _ :: rest => by
    simp only [send_route, List.map, send_route_eq_map s rest]

/-- C7 (code bug): the `/api/send` loop does yield one independent result
per item — the i-th result is a function of the i-th item alone, failures
(malformed hex, driver rejection, not connected) becoming a structured
`ok: false` entry with an `error` field that never aborts the rest — but
`selftest` on a manager whose `_bus` attribute was never assigned (the only
kind the constructor produces) raises `AttributeError` instead of returning
the structured not-connected record. -/
theorem send_batch_independent_results :
    (∀ (s : BMState) (items : List (String × String)),
       send_route s items = items.map (sendItemResult s) ∧
       (send_route s items).length = items.length) ∧
    (∀ (s : BMState) (item : String × String) (e : PyErr),
       bm_send s item.1 item.2 = .error e →
       sendItemResult s item =
         [("id_hex", .str item.1), ("ok", .bool false),
          ("error", .str (pyErrMsg e))]) ∧
    (∀ (isWindows hasPythonCan : Bool) (arr : Nat → List Frame) (fuel : Nat),
       bm_selftest (busManagerInit isWindows hasPythonCan) arr fuel
         = .error .attributeError) := by
  refine ⟨fun s items => ⟨send_route_eq_map s items, ?_⟩, ?_, fun _ _ _ _ => rfl⟩
  · rw [send_route_eq_map s items, List.length_map]
  · intro s item e he
    simp only [sendItemResult, he]

/-- Witness for C7: a not-connected send is reported as a structured
per-item failure. -/
theorem send_batch_independent_results_witness :
    sendItemResult
        { impl := none, implName := none, lock := some (),
          bus := some none, info := some [] } ("18F11CEF", "A55A") =
      [("id_hex", .str "18F11CEF"), ("ok", .bool false),
       ("error", .str (pyErrMsg (.runtimeError "Not connected")))] :=
  send_batch_independent_results.2.1
    { impl := none, implName := none, lock := some (),
      bus := some none, info := some [] }
    ("18F11CEF", "A55A") (.runtimeError "Not connected") rfl

/-! ## Claim C9: backend routing by channel prefix -/

/-- C9 counterexample: a channel with the Kvaser prefix does not route to
the Kvaser variant — `connect` sends `"kvaser0"` down the SocketCAN branch
(the only prefix it tests is `"intrepid"`), independent of the probe. -/
theorem kvaser_channel_routes_to_socketcan :
    connect_select (some "kvaser") true "kvaser0" = .socketcanB "kvaser0" ∧
    connect_select (some "kvaser") true "kvaser0" ≠ .kvaserB 0 ∧
    connect_select none true "kvaser0"
      = connect_select (some "kvaser") true "kvaser0" := by
  refine ⟨?_, ?_, rfl⟩
  · rfl
  · intro h
    rw [show connect_select (some "kvaser") true "kvaser0"
          = .socketcanB "kvaser0" from rfl] at h
    exact BackendChoice.noConfusion h

/-- C9 amended: `connect` instantiates at most one backend variant per call,
chosen solely by whether the channel name starts with `"intrepid"`:
such channels go to the Intrepid variant (or fail on an unparsable index),
all other channels — the `"kvaser..."` ones included — go to the SocketCAN
variant when python-can is importable and fail otherwise; the choice is
independent of the construction-time probe result (and hence of the
platform that produced it). -/
theorem connect_select_channel_routing :
    (∀ (p1 p2 : Option String) (hp : Bool) (ch : String),
       connect_select p1 hp ch = connect_select p2 hp ch) ∧
    (∀ (p : Option String) (hp : Bool) (ch : String),
       pyStartsWith ch "intrepid" = true →
       (∃ i, connect_select p hp ch = .intrepidB i) ∨
         connect_select p hp ch = .noBackend "invalid intrepid index") ∧
    (∀ (p : Option String) (ch : String), pyStartsWith ch "intrepid" = false →
       connect_select p true ch = .socketcanB ch) ∧
    (∀ (p : Option String) (ch : String), pyStartsWith ch "intrepid" = false →
       connect_select p false ch = .noBackend "python-can not available") := by
  refine ⟨fun _ _ _ _ => rfl, ?_, ?_, ?_⟩
  · intro p hp ch h
    simp only [connect_select, h, if_true]
    rcases hidx : pyIntDec (if pyReplaceDel ch "intrepid" = "" then "0"
        else pyReplaceDel ch "intrepid") with _ | i
    · exact Or.inr rfl
    · exact Or.inl ⟨i, rfl⟩
  · intro p ch h
    simp [connect_select, h]
  · intro p ch h
    simp [connect_select, h]

/-- Witness for C9 at the two concrete channels `"intrepid2"` and
`"vcan0"`. -/
theorem connect_select_channel_routing_witness :
    ((∃ i, connect_select none true "intrepid2" = .intrepidB i) ∨
       connect_select none true "intrepid2"
         = .noBackend "invalid intrepid index") ∧
    connect_select none true "vcan0" = .socketcanB "vcan0" ∧
    connect_select none false "vcan0"
      = .noBackend "python-can not available" :=
  ⟨connect_select_channel_routing.2.1 none true "intrepid2" (by rfl),
   connect_select_channel_routing.2.2.1 none "vcan0" (by rfl),
   connect_select_channel_routing.2.2.2 none "vcan0" (by rfl)⟩

/-! ## Claim C4: receive-queue overflow policy -/

/-- Closed form of the Intrepid batch enqueue: frames are appended until the
queue reaches capacity, the rest of the batch is lost. -/
theorem intrepid_enqueue_closed_form :
    ∀ (fs q : List Frame), q.length ≤ rxCapacity →
      intrepid_rx_enqueue_batch q fs = q ++ fs.take (rxCapacity - q.length) := by
  intro fs
  induction fs with
  | nil => intro q _; simp [intrepid_rx_enqueue_batch]
  | cons f rest ih =>
    intro q hq
    by_cases h : q.length < rxCapacity
    · rw [intrepid_rx_enqueue_batch, if_pos h,
        ih (q ++ [f])
          (by simp only [List.length_append, List.length_cons, List.length_nil]
              omega)]
      have hstep : rxCapacity - q.length = (rxCapacity - (q ++ [f]).length) + 1 := by
        simp only [List.length_append, List.length_cons, List.length_nil]
        omega
      rw [hstep, List.take_succ_cons, List.append_assoc, List.singleton_append]
    · have heq : q.length = rxCapacity := by omega
      rw [intrepid_rx_enqueue_batch, if_neg h, heq]
      simp

/-- C4 counterexample: the Intrepid capture loop does not drop the oldest
frame on overflow — enqueuing one frame into a full queue leaves the queue
unchanged: the newest frame is the one lost, every old one retained. -/
theorem intrepid_full_queue_drops_newest :
    intrepid_rx_enqueue_batch
        (List.replicate rxCapacity (Frame.mk 0 "00000000" []))
        [Frame.mk 0 "18F11CEF" [1]]
      = List.replicate rxCapacity (Frame.mk 0 "00000000" []) ∧
    Frame.mk 0 "18F11CEF" [1] ∉
      intrepid_rx_enqueue_batch
        (List.replicate rxCapacity (Frame.mk 0 "00000000" []))
        [Frame.mk 0 "18F11CEF" [1]] ∧
    intrepid_rx_enqueue_batch
        (List.replicate rxCapacity (Frame.mk 0 "00000000" []))
        [Frame.mk 0 "18F11CEF" [1]]
      ≠ (List.replicate rxCapacity (Frame.mk 0 "00000000" [])).drop 1 ++
          [Frame.mk 0 "18F11CEF" [1]] := by
  have h1 : intrepid_rx_enqueue_batch
      (List.replicate rxCapacity (Frame.mk 0 "00000000" []))
      [Frame.mk 0 "18F11CEF" [1]]
      = List.replicate rxCapacity (Frame.mk 0 "00000000" []) := by
    rw [intrepid_enqueue_closed_form [Frame.mk 0 "18F11CEF" [1]]
      (List.replicate rxCapacity (Frame.mk 0 "00000000" [])) (by simp)]
    simp only [List.length_replicate, Nat.sub_self, List.take_zero,
      List.append_nil]
  have hne : Frame.mk (0 : ℚ) "18F11CEF" [1] ≠ Frame.mk (0 : ℚ) "00000000" [] := by
    intro h
    have := congrArg Frame.data h
    simp at this
  have h2 : Frame.mk 0 "18F11CEF" [1] ∉
      List.replicate rxCapacity (Frame.mk 0 "00000000" []) := by
    rw [List.mem_replicate]
    rintro ⟨-, h⟩
    exact hne h
  refine ⟨h1, by rw [h1]; exact h2, ?_⟩
  rw [h1]
  intro hcontra
  apply h2
  rw [hcontra]
  exact List.mem_append_right _ (List.mem_singleton.mpr rfl)

/-- C4 amended: both queue-owning variants cap the queue at 10,000 and keep
retained frames in FIFO order, but only the SocketCAN capture loop implements
drop-oldest (full queue: evict exactly the oldest, retain the newest); the
Intrepid capture loop instead drops the incoming newest frames once the
queue is full, also losing the rest of the received batch.  (The Kvaser
variant owns no receive queue at all.) -/
theorem rx_queue_overflow_behavior :
    (∀ (q : List Frame) (f : Frame), q.length ≤ rxCapacity →
       socketcan_rx_enqueue q f = dropOldestEnqueue q f ∧
       (socketcan_rx_enqueue q f).length ≤ rxCapacity ∧
       (q.length = rxCapacity →
         socketcan_rx_enqueue q f = q.drop 1 ++ [f])) ∧
    (∀ (q fs : List Frame), q.length ≤ rxCapacity →
       intrepid_rx_enqueue_batch q fs
         = q ++ fs.take (rxCapacity - q.length) ∧
       (intrepid_rx_enqueue_batch q fs).length ≤ rxCapacity) := by
  constructor
  · intro q f hq
    by_cases h : q.length < rxCapacity
    · refine ⟨by rw [socketcan_rx_enqueue, dropOldestEnqueue, if_pos h, if_pos h], ?_, ?_⟩
      · rw [socketcan_rx_enqueue, if_pos h]
        simp only [List.length_append, List.length_cons, List.length_nil]
        omega
      · intro hfull; omega
    · have hfull : q.length = rxCapacity := by omega
      have hd : (q.drop 1).length < rxCapacity := by
        simp only [List.length_drop]
        rw [hfull]
        norm_num [rxCapacity]
      refine ⟨?_, ?_, fun _ => ?_⟩
      · rw [socketcan_rx_enqueue, dropOldestEnqueue, if_neg h, if_neg h, if_pos hd]
      · rw [socketcan_rx_enqueue, if_neg h, if_pos hd]
        simp only [List.length_append, List.length_drop, List.length_cons,
          List.length_nil]
        omega
      · rw [socketcan_rx_enqueue, if_neg h, if_pos hd]
  · intro q fs hq
    refine ⟨intrepid_enqueue_closed_form fs q hq, ?_⟩
    rw [intrepid_enqueue_closed_form fs q hq]
    simp only [List.length_append]
    have := List.length_take_le (rxCapacity - q.length) fs
    omega

/-- Witness for C4 at a one-slot-from-full SocketCAN queue and a full
Intrepid queue. -/
theorem rx_queue_overflow_behavior_witness :
    (socketcan_rx_enqueue (List.replicate rxCapacity (Frame.mk 0 "00000000" []))
        (Frame.mk 0 "18F11CEF" [1])
      = dropOldestEnqueue (List.replicate rxCapacity (Frame.mk 0 "00000000" []))
          (Frame.mk 0 "18F11CEF" [1]) ∧
     (socketcan_rx_enqueue (List.replicate rxCapacity (Frame.mk 0 "00000000" []))
        (Frame.mk 0 "18F11CEF" [1])).length ≤ rxCapacity ∧
     ((List.replicate rxCapacity (Frame.mk 0 "00000000" [])).length = rxCapacity →
       socketcan_rx_enqueue (List.replicate rxCapacity (Frame.mk 0 "00000000" []))
          (Frame.mk 0 "18F11CEF" [1])
         = (List.replicate rxCapacity (Frame.mk 0 "00000000" [])).drop 1 ++
             [Frame.mk 0 "18F11CEF" [1]])) :=
  rx_queue_overflow_behavior.1
    (List.replicate rxCapacity (Frame.mk 0 "00000000" []))
    (Frame.mk 0 "18F11CEF" [1]) (by simp)

/-! ## Claim C5: teardown before open, single backend/loop -/

/-- C5: a `connect` issued while backend `old` is open and its capture loop
runs (teardown serialized by the connection lock, as `async with self._lock`
guarantees) performs the close and the loop join of `old` strictly before
any event of the new backend: in every prefix of the event sequence that
already contains the new driver open, the old shutdown and the old loop
join have happened; and through every intermediate state at most one driver
handle is open and at most one capture loop runs. -/
theorem connect_teardown_before_open (old new : Nat) :
    (∀ s ∈ statesOf { openHws := [old], loops := [old] }
        (connectEvents (some old) new),
       s.openHws.length ≤ 1 ∧ s.loops.length ≤ 1) ∧
    (∀ k, BusEvent.openHw new ∈ (connectEvents (some old) new).take k →
       BusEvent.shutdownHw old ∈ (connectEvents (some old) new).take k ∧
       BusEvent.joinLoop old ∈ (connectEvents (some old) new).take k) := by
  constructor
  · intro s hs
    simp only [connectEvents, closeEvents, statesOf, applyEvent,
      List.cons_append, List.nil_append, List.erase_cons_head,
      List.mem_cons, List.mem_singleton, List.not_mem_nil, or_false] at hs
    rcases hs with rfl | rfl | rfl | rfl | rfl | rfl | rfl <;> simp
  · intro k hk
    match k with
    | 0 => simp [List.take] at hk
    | 1 => simp [connectEvents, closeEvents, List.take] at hk
    | 2 => simp [connectEvents, closeEvents, List.take] at hk
    | 3 => simp [connectEvents, closeEvents, List.take] at hk
    | 4 => simp [connectEvents, closeEvents, List.take] at hk
    | (n + 5) =>
      constructor <;>
        · simp [connectEvents, closeEvents, List.take]

/-- Witness for C5 with backends named 0 (old) and 1 (new): the final state,
and the prefix of length 5 that contains the new open. -/
theorem connect_teardown_before_open_witness :
    (({ openHws := [1], loops := [1] } : CapState).openHws.length ≤ 1 ∧
      ({ openHws := [1], loops := [1] } : CapState).loops.length ≤ 1) ∧
    (BusEvent.shutdownHw 0 ∈ (connectEvents (some 0) 1).take 5 ∧
      BusEvent.joinLoop 0 ∈ (connectEvents (some 0) 1).take 5) :=
  ⟨(connect_teardown_before_open 0 1).1 { openHws := [1], loops := [1] }
      (by decide),
   (connect_teardown_before_open 0 1).2 5 (by decide)⟩

/-! ## Claim C6: get_rx_batch polling semantics -/

/-- The poll loop of `get_rx_batch` is exactly first-nonempty-poll
semantics. -/
theorem getRxBatchLoop_eq_firstNonempty (arr : Nat → List Frame)
    (m : Nat) : ∀ (fuel t : Nat) (q : List Frame),
    getRxBatchLoop arr m t fuel q = firstNonemptyPoll arr m t fuel q := by
  intro fuel
  induction fuel with
  | zero => intro t q; rfl
  | succ n ih =>
    intro t q
    simp only [getRxBatchLoop, firstNonemptyPoll, read_batch]
    by_cases h : (q.take m).isEmpty
    · simp [h, ih]
    · simp [h]

/-- The poll loop never returns more than `max_items` frames. -/
theorem getRxBatchLoop_length_le (arr : Nat → List Frame) (m : Nat) :
    ∀ (fuel t : Nat) (q : List Frame),
    (getRxBatchLoop arr m t fuel q).length ≤ m := by
  intro fuel
  induction fuel with
  | zero => intro t q; simp [getRxBatchLoop]
  | succ n ih =>
    intro t q
    simp only [getRxBatchLoop, read_batch]
    by_cases h : (q.take m).isEmpty
    · simp only [h, if_true]
      exact ih _ _
    · simp only [h, Bool.false_eq_true, if_false]
      exact List.length_take_le m q

/-- With an empty queue and no arrivals, the poll loop returns nothing. -/
theorem getRxBatchLoop_empty_arr (arr : Nat → List Frame) (m : Nat)
    (hnil : ∀ u, arr u = []) : ∀ (fuel t : Nat),
    getRxBatchLoop arr m t fuel [] = [] := by
  intro fuel
  induction fuel with
  | zero => intro t; rfl
  | succ n ih =>
    intro t
    simp only [getRxBatchLoop, read_batch, List.take_nil, List.isEmpty_nil,
      if_true, List.drop_nil, List.nil_append, hnil t]
    exact ih (t + 1)

/-- With an empty queue, the poll loop returns the head of the first
nonempty arrival batch, provided it lands at least two ticks before the
deadline (one tick to pass the empty first poll, one to read it). -/
theorem getRxBatchLoop_first_arrival (arr : Nat → List Frame) (m : Nat)
    (hm : 0 < m) : ∀ (t0 fuel t : Nat),
    (∀ u < t0, arr (t + u) = []) → arr (t + t0) ≠ [] → t0 + 2 ≤ fuel →
    getRxBatchLoop arr m t fuel [] = (arr (t + t0)).take m := by
  intro t0
  induction t0 with
  | zero =>
    intro fuel t _ hne hfuel
    match fuel, hfuel with
    | f + 2, _ =>
      simp only [getRxBatchLoop, read_batch, List.take_nil, List.isEmpty_nil,
        if_true, List.drop_nil, List.nil_append]
      have hb : ((arr t).take m).isEmpty = false := by
        rw [List.isEmpty_eq_false, Ne, List.take_eq_nil_iff]
        push_neg
        exact ⟨by omega, hne⟩
      simp only [getRxBatchLoop, read_batch, hb, Bool.false_eq_true, if_false,
        Nat.add_zero]
  | succ s ih =>
    intro fuel t hpre hne hfuel
    match fuel, hfuel with
    | f + 1, _ =>
      simp only [getRxBatchLoop, read_batch, List.take_nil, List.isEmpty_nil,
        if_true, List.drop_nil, List.nil_append]
      have h0 : arr t = [] := by simpa using hpre 0 (by omega)
      rw [h0]
      have h1 : ∀ u < s, arr (t + 1 + u) = [] := by
        intro u hu
        have := hpre (u + 1) (by omega)
        rwa [show t + (u + 1) = t + 1 + u by omega] at this
      have h2 : arr (t + 1 + s) ≠ [] := by
        rwa [show t + 1 + s = t + (s + 1) by omega]
      have := ih f (t + 1) h1 h2 (by omega)
      rw [this, show t + 1 + s = t + (s + 1) by omega]

/-- C6 counterexample: with one frame already queued, `max_items = 2`, a
second frame arriving on the next tick and five ticks of timeout left,
`get_rx_batch` returns after the first poll with a single frame — it does
not poll on until `max_items` frames are collected or the timeout elapses,
as the accumulating loop the claim describes would (that loop collects both
frames in the same window). -/
theorem get_rx_batch_stops_before_max_items :
    bm_get_rx_batch
        { impl := none, implName := none, lock := some (),
          bus := some (some { queue := [Frame.mk 0 "00000001" []],
                              sendFn := fun _ _ => .ok (),
                              healthFn := .ok [] }),
          info := some [] }
        (fun t => if t = 0 then [Frame.mk 0 "00000002" []] else []) 5 2
      = .ok [Frame.mk 0 "00000001" []] ∧
    rxBatchAsClaimed (fun t => if t = 0 then [Frame.mk 0 "00000002" []] else [])
        2 0 5 [Frame.mk 0 "00000001" []] []
      = [Frame.mk 0 "00000001" [], Frame.mk 0 "00000002" []] ∧
    [Frame.mk (0 : ℚ) "00000001" []].length < 2 :=
  ⟨rfl, rfl, by norm_num⟩

/-- C6 amended: `get_rx_batch` polls in ~10ms ticks and returns at the
first poll that finds any frames — at most `max_items` of them, from that
single poll — or the empty list when no frames show up before the timeout;
it never returns more than `max_items` frames and never outlasts its tick
budget.  In particular, with an empty queue the result is exactly the head
of the first arrival batch that lands at least two ticks before the
deadline. -/
theorem get_rx_batch_first_nonempty (s : BMState) (b : Backend)
    (arr : Nat → List Frame) (fuel maxItems : Nat)
    (hbus : s.bus = some (some b)) :
    bm_get_rx_batch s arr (fuel + 1) maxItems
      = .ok (firstNonemptyPoll arr maxItems 0 (fuel + 1) b.queue) ∧
    (∀ l, bm_get_rx_batch s arr (fuel + 1) maxItems = .ok l →
       l.length ≤ maxItems) ∧
    (b.queue = [] → (∀ u, arr u = []) →
       bm_get_rx_batch s arr (fuel + 1) maxItems = .ok []) ∧
    (b.queue = [] → 0 < maxItems →
       ∀ t0, (∀ u < t0, arr u = []) → arr t0 ≠ [] → t0 + 2 ≤ fuel + 1 →
       bm_get_rx_batch s arr (fuel + 1) maxItems
         = .ok ((arr t0).take maxItems)) := by
  have hrun : bm_get_rx_batch s arr (fuel + 1) maxItems
      = .ok (getRxBatchLoop arr maxItems 0 (fuel + 1) b.queue) := by
    simp only [bm_get_rx_batch, hbus]
  refine ⟨?_, ?_, ?_, ?_⟩
  · rw [hrun, getRxBatchLoop_eq_firstNonempty]
  · intro l hl
    rw [hrun] at hl
    cases hl
    exact getRxBatchLoop_length_le arr maxItems (fuel + 1) 0 b.queue
  · intro hq hnil
    rw [hrun, hq, getRxBatchLoop_empty_arr arr maxItems hnil]
  · intro hq hm t0 hpre hne hfuel
    rw [hrun, hq,
      getRxBatchLoop_first_arrival arr maxItems hm t0 (fuel + 1) 0
        (by simpa using hpre) (by simpa using hne) hfuel]
    simp

/-- Witness for C6: an empty queue, the sentinel-free arrival at tick 1,
three ticks of budget. -/
theorem get_rx_batch_first_nonempty_witness :
    bm_get_rx_batch
        { impl := none, implName := none, lock := some (),
          bus := some (some { queue := [],
                              sendFn := fun _ _ => .ok (),
                              healthFn := .ok [] }),
          info := some [] }
        (fun t => if t = 1 then [Frame.mk 0 "00000003" []] else []) 3 2
      = .ok ((if (1 : Nat) = 1 then [Frame.mk (0 : ℚ) "00000003" []] else []).take 2) :=
  ((get_rx_batch_first_nonempty
      { impl := none, implName := none, lock := some (),
        bus := some (some { queue := [],
                            sendFn := fun _ _ => .ok (),
                            healthFn := .ok [] }),
        info := some [] }
      { queue := [], sendFn := fun _ _ => .ok (), healthFn := .ok [] }
      (fun t => if t = 1 then [Frame.mk 0 "00000003" []] else []) 2 2
      rfl).2.2.2 rfl (by norm_num) 1
      (by intro u hu; interval_cases u; rfl) (by simp) (by norm_num))

/-! ## Claim C8: self-test protocol -/

/-- The echo flag of the self-test poll loop is set exactly when a sentinel
match shows up in a polled batch: with per-tick arrival batches of at most
1000 frames (one `read_batch(1000)` swallows a whole batch), that is either
a match already in the queue, or a match in an arrival batch that lands at
least two ticks before the deadline. -/
theorem selftestLoop_echo_iff (arr : Nat → List Frame)
    (harr : ∀ u, (arr u).length ≤ 1000) :
    ∀ (fuel t : Nat) (q : List Frame) (seen : Nat), q.length ≤ 1000 →
    ((selftestLoop arr t fuel q seen).1 = true ↔
      (1 ≤ fuel ∧ q.any isSentinelFrame = true) ∨
        ∃ s, s + 2 ≤ fuel ∧ (arr (t + s)).any isSentinelFrame = true) := by
  intro fuel
  induction fuel with
  | zero =>
    intro t q seen _
    simp only [selftestLoop]
    constructor
    · intro h; cases h
    · rintro (⟨h, -⟩ | ⟨s, h, -⟩) <;> omega
  | succ n ih =>
    intro t q seen hq
    simp only [selftestLoop, read_batch, List.take_of_length_le hq,
      List.drop_eq_nil_of_le hq, List.nil_append]
    by_cases hany : q.any isSentinelFrame = true
    · rw [if_pos hany]
      exact Iff.intro (fun _ => Or.inl ⟨by omega, hany⟩) (fun _ => rfl)
    · simp only [hany, Bool.false_eq_true, if_false]
      rw [ih (t + 1) (arr t) (seen + q.length) (harr t)]
      constructor
      · rintro (⟨hf, ha⟩ | ⟨s, hs, ha⟩)
        · exact Or.inr ⟨0, by omega, by simpa using ha⟩
        · exact Or.inr ⟨s + 1, by omega,
            by rwa [show t + (s + 1) = t + 1 + s by omega]⟩
      · rintro (⟨-, ha⟩ | ⟨s, hs, ha⟩)
        · cases ha
        · match s, hs with
          | 0, _ => exact Or.inl ⟨by omega, by simpa using ha⟩
          | u + 1, _ => exact Or.inr ⟨u, by omega,
              by rwa [show t + 1 + u = t + (u + 1) by omega]⟩

/-- C8: on a connected manager whose backend accepts the sentinel transmit,
`selftest` first discards every queued stale frame (the result does not
depend on the queue contents at all), then reports exactly the record
`{connected, tx_ok, echo_rx, rx_seen}` (plus the fixed note) with no
`error` binding — `tx_ok = true` with `echo_rx = false` is reported as a
plain outcome — and `echo_rx` is true exactly when a frame matching the
sentinel identifier and payload under case-insensitive hex comparison is
polled before the deadline (an arrival batch at least two poll ticks before
it runs out). -/
theorem selftest_echo_iff_sentinel_observed (s : BMState) (b : Backend)
    (arr : Nat → List Frame) (fuel : Nat)
    (hbus : s.bus = some (some b))
    (hq : b.queue.length ≤ rxCapacity)
    (harr : ∀ u, (arr u).length ≤ 1000)
    (hsend : b.sendFn selftest_id_hex selftest_data_hex = .ok ()) :
    (∃ e n, bm_selftest s arr fuel =
        .ok [("connected", .bool true), ("tx_ok", .bool true),
             ("echo_rx", .bool e), ("rx_seen", .nat n),
             ("note", .str "Echo depends on loopback/other node.")] ∧
      (e = true ↔ ∃ u, u + 2 ≤ fuel ∧ (arr u).any isSentinelFrame = true) ∧
      List.lookup "error"
        [("connected", PyVal.bool true), ("tx_ok", PyVal.bool true),
         ("echo_rx", PyVal.bool e), ("rx_seen", PyVal.nat n),
         ("note", PyVal.str "Echo depends on loopback/other node.")]
        = none) ∧
    selftest_connected b arr fuel
      = selftest_connected
          { queue := [], sendFn := b.sendFn, healthFn := b.healthFn }
          arr fuel := by
  have hq10 : b.queue.length ≤ 10000 := by
    simpa [rxCapacity] using hq
  have hdrop : b.queue.drop 10000 = [] := List.drop_eq_nil_of_le hq10
  constructor
  · refine ⟨(selftestLoop arr 0 fuel [] 0).1, (selftestLoop arr 0 fuel [] 0).2,
      ?_, ?_, rfl⟩
    · simp only [bm_selftest, hbus, selftest_connected, read_batch, hdrop,
        hsend]
    · rw [selftestLoop_echo_iff arr harr fuel 0 [] 0 (by simp)]
      simp
  · simp only [selftest_connected, read_batch, hdrop, List.drop_nil]

/-- Witness for C8: empty queue, lowercase-hex sentinel echo arriving at
tick 0, two poll ticks of deadline. -/
theorem selftest_echo_iff_sentinel_observed_witness :
    ∃ e n,
      bm_selftest
          { impl := none, implName := none, lock := some (),
            bus := some (some { queue := [],
                                sendFn := fun _ _ => .ok (),
                                healthFn := .ok [] }),
            info := some [] }
          (fun t => if t = 0 then
              [Frame.mk 0 "18f11cef"
                [0xA5, 0x5A, 0x55, 0xA5, 0x5A, 0x55, 0xA5, 0x5A]]
            else []) 2
        = .ok [("connected", .bool true), ("tx_ok", .bool true),
               ("echo_rx", .bool e), ("rx_seen", .nat n),
               ("note", .str "Echo depends on loopback/other node.")] ∧
      (e = true ↔ ∃ u, u + 2 ≤ 2 ∧
        ((fun t => if t = 0 then
            [Frame.mk (0 : ℚ) "18f11cef"
              [0xA5, 0x5A, 0x55, 0xA5, 0x5A, 0x55, 0xA5, 0x5A]]
          else []) u).any isSentinelFrame = true) ∧
      List.lookup "error"
        [("connected", PyVal.bool true), ("tx_ok", PyVal.bool true),
         ("echo_rx", PyVal.bool e), ("rx_seen", PyVal.nat n),
         ("note", PyVal.str "Echo depends on loopback/other node.")]
        = none :=
  (selftest_echo_iff_sentinel_observed
    { impl := none, implName := none, lock := some (),
      bus := some (some { queue := [],
                          sendFn := fun _ _ => .ok (),
                          healthFn := .ok [] }) ,
      info := some [] }
    { queue := [], sendFn := fun _ _ => .ok (), healthFn := .ok [] }
    (fun t => if t = 0 then
        [Frame.mk 0 "18f11cef"
          [0xA5, 0x5A, 0x55, 0xA5, 0x5A, 0x55, 0xA5, 0x5A]]
      else []) 2
    rfl (by simp [rxCapacity])
    (fun u => by by_cases h : u = 0 <;> simp [h])
    rfl).1

/-! ## Claim C3: decode totality and identifier decomposition -/

/-- The Python floor-shift/mask pipeline of `decode_frame`, evaluated on a
nonnegative identifier, is the plain shift-and-mask decomposition. -/
theorem decode_split_natCast (n : Nat) :
    (((n : Int).fdiv 65536).emod 256).toNat = (n >>> 16) &&& 255 ∧
    (((n : Int).fdiv 256).emod 256).toNat = (n >>> 8) &&& 255 ∧
    ((n : Int).emod 256).toNat = n &&& 255 := by
  have hcast : ∀ m k : Nat, ((m : Int).emod (k : Int)).toNat = m % k := by
    intro m k
    rfl
  have hf16 : (n : Int).fdiv 65536 = ((n / 65536 : Nat) : Int) := by
    rw [show (65536 : Int) = ((65536 : Nat) : Int) by norm_num, ← Int.ofNat_fdiv]
  have hf8 : (n : Int).fdiv 256 = ((n / 256 : Nat) : Int) := by
    rw [show (256 : Int) = ((256 : Nat) : Int) by norm_num, ← Int.ofNat_fdiv]
  have hmask : ∀ m : Nat, m &&& 255 = m % 256 := by
    intro m
    have := Nat.and_pow_two_sub_one_eq_mod m 8
    norm_num at this
    exact this
  refine ⟨?_, ?_, ?_⟩
  · rw [hf16, show (256 : Int) = ((256 : Nat) : Int) by norm_num, hcast,
      Nat.shiftRight_eq_div_pow, hmask]
  · rw [hf8, show (256 : Int) = ((256 : Nat) : Int) by norm_num, hcast,
      Nat.shiftRight_eq_div_pow, hmask]
  · rw [show (256 : Int) = ((256 : Nat) : Int) by norm_num, hcast, hmask]

/-- C3: `decode_frame` is total over every identifier and payload length:
an unparsable identifier hex string yields the all-null result (`pgn` and
`sa` null, no signals) rather than an error; a parsed identifier `n` yields
`sa = n & 0xFF` and `pgn = (pdu_format << 8) | pdu_specific` when
`pdu_format ≥ 240`, else `pgn = pdu_format << 8`, with
`pdu_format = (n >> 16) & 0xFF` and `pdu_specific = (n >> 8) & 0xFF`; and a
payload of any length up to 8 is right-zero-padded to exactly 8 bytes, the
padded frame decoding identically. -/
theorem decode_frame_total_and_id_split (fr : Frame) :
    (pyIntHex fr.id_hex = none →
       decode_frame fr = { pgn := none, sa := none, decoded := [] }) ∧
    (∀ n : Nat, pyIntHex fr.id_hex = some (n : Int) →
       (decode_frame fr).sa = some (n &&& 0xFF) ∧
       (decode_frame fr).pgn = some (
         if 240 ≤ (n >>> 16) &&& 0xFF then
           (((n >>> 16) &&& 0xFF) <<< 8) ||| ((n >>> 8) &&& 0xFF)
         else ((n >>> 16) &&& 0xFF) <<< 8)) ∧
    (fr.data.length ≤ 8 →
       (paddedData fr).length = 8 ∧
       decode_frame fr = decode_frame { fr with data := paddedData fr }) := by
  refine ⟨?_, ?_, ?_⟩
  · intro h
    simp [decode_frame, h]
  · intro n h
    obtain ⟨e1, e2, e3⟩ := decode_split_natCast n
    simp only [decode_frame, h, e1, e2, e3]
    exact ⟨by first | rfl | trivial, by first | rfl | trivial⟩
  · intro hlen
    have h8 : (paddedData fr).length = 8 := by
      simp only [paddedData, List.length_append, List.length_replicate]
      omega
    refine ⟨h8, ?_⟩
    have hpad : paddedData { fr with data := paddedData fr } = paddedData fr := by
      simp only [paddedData] at h8 ⊢
      rw [h8]
      simp
    cases hid : pyIntHex fr.id_hex with
    | none => simp [decode_frame, hid]
    | some arb => simp only [decode_frame, hid, hpad]

/-- Witness for C3: the parsed identifier `18FEE5FF` with a four-byte
payload, and the unparsable identifier `"zz"`. -/
theorem decode_frame_total_and_id_split_witness :
    ((decode_frame (Frame.mk 0 "18FEE5FF" [0xA0, 0x86, 0x01, 0x00])).sa
        = some (419358207 &&& 0xFF) ∧
     (decode_frame (Frame.mk 0 "18FEE5FF" [0xA0, 0x86, 0x01, 0x00])).pgn
        = some (
          if 240 ≤ (419358207 >>> 16) &&& 0xFF then
            (((419358207 >>> 16) &&& 0xFF) <<< 8) ||| ((419358207 >>> 8) &&& 0xFF)
          else ((419358207 >>> 16) &&& 0xFF) <<< 8)) ∧
    ((paddedData (Frame.mk 0 "18FEE5FF" [0xA0, 0x86, 0x01, 0x00])).length = 8 ∧
     decode_frame (Frame.mk 0 "18FEE5FF" [0xA0, 0x86, 0x01, 0x00])
       = decode_frame { Frame.mk 0 "18FEE5FF" [0xA0, 0x86, 0x01, 0x00] with
           data := paddedData (Frame.mk 0 "18FEE5FF" [0xA0, 0x86, 0x01, 0x00]) }) ∧
    decode_frame (Frame.mk 0 "zz" [])
      = { pgn := none, sa := none, decoded := [] } :=
  ⟨(decode_frame_total_and_id_split
      (Frame.mk 0 "18FEE5FF" [0xA0, 0x86, 0x01, 0x00])).2.1 419358207 (by decide),
   (decode_frame_total_and_id_split
      (Frame.mk 0 "18FEE5FF" [0xA0, 0x86, 0x01, 0x00])).2.2 (by norm_num),
   (decode_frame_total_and_id_split (Frame.mk 0 "zz" [])).1 (by decide)⟩

/-! ## Claim C1: the decoder against the specification table -/

/-- An 8-byte list decomposes into its bytes. -/
theorem list8 (l : List Nat) (h : l.length = 8) :
    ∃ a0 a1 a2 a3 a4 a5 a6 a7 : Nat, l = [a0, a1, a2, a3, a4, a5, a6, a7] := by
  match l, h with
  | [a0, a1, a2, a3, a4, a5, a6, a7], _ =>
    exact ⟨a0, a1, a2, a3, a4, a5, a6, a7, rfl⟩

/-- `round(x, 3)` fixes any value that happens to be an integer. -/
theorem pyRound3_eq_self_of_intCast {q : ℚ} (z : ℤ) (h : q = (z : ℚ)) :
    pyRound3 q = q := by
  rw [h, pyRound3_intCast]

/-- The decoder's signal extraction agrees field-by-field with the
specification's §4.1 table on every 8-byte payload and every PGN. -/
theorem decodeSignals_eq_tableSignals (pgn : Nat) (b : List Nat)
    (hlen : b.length = 8) (hb : ∀ x ∈ b, x < 256) :
    decodeSignals pgn b = tableSignals pgn b := by
  obtain ⟨a0, a1, a2, a3, a4, a5, a6, a7, rfl⟩ := list8 b hlen
  have h0 : a0 < 256 := hb _ (by simp)
  have h1 : a1 < 256 := hb _ (by simp)
  have h2 : a2 < 256 := hb _ (by simp)
  have h4 : a4 < 256 := hb _ (by simp)
  rcases eq_or_ne pgn 65253 with rfl | p1
  · simp only [decodeSignals, tableSignals]
    norm_num
    rw [or_chain_eq_u32 h0 h1 h2]
    simp only [tableField, u32le, List.getD_cons_zero, List.getD_cons_succ]
    by_cases hna : a0 = 255 ∨ a1 = 255 ∨ a2 = 255 ∨ a3 = 255
    · rw [if_pos (by tauto), if_pos (by simpa using hna)]
    · rw [if_neg (by tauto), if_neg (by simpa using hna)]
  rcases eq_or_ne pgn 65262 with rfl | p2
  · simp only [decodeSignals, tableSignals]
    norm_num
    rw [u16_eq_add a3 h2]
    simp only [tableField, u16le, List.getD_cons_zero, List.getD_cons_succ,
      decide_eq_true_eq, Bool.or_eq_true]
    have r0 : pyRound3 ((a0 : ℚ) - 40) = (a0 : ℚ) - 40 :=
      pyRound3_eq_self_of_intCast ((a0 : ℤ) - 40) (by push_cast; ring)
    have r1 : pyRound3 ((a1 : ℚ) - 40) = (a1 : ℚ) - 40 :=
      pyRound3_eq_self_of_intCast ((a1 : ℤ) - 40) (by push_cast; ring)
    rw [r0, r1]
    all_goals and_intros <;> first | rfl | trivial
  rcases eq_or_ne pgn 65263 with rfl | p3
  · simp only [decodeSignals, tableSignals]
    norm_num
    simp only [tableField, List.getD_cons_zero, List.getD_cons_succ,
      decide_eq_true_eq]
    have r0 : pyRound3 ((a0 : ℚ) * 4) = (a0 : ℚ) * 4 :=
      pyRound3_eq_self_of_intCast ((a0 : ℤ) * 4) (by push_cast; ring)
    have r3 : pyRound3 ((a3 : ℚ) * 4) = (a3 : ℚ) * 4 :=
      pyRound3_eq_self_of_intCast ((a3 : ℤ) * 4) (by push_cast; ring)
    have r6 : pyRound3 ((a6 : ℚ) * 2) = (a6 : ℚ) * 2 :=
      pyRound3_eq_self_of_intCast ((a6 : ℤ) * 2) (by push_cast; ring)
    rw [r0, r3, r6]
    all_goals and_intros <;> first | rfl | trivial
  rcases eq_or_ne pgn 65272 with rfl | p4
  · simp only [decodeSignals, tableSignals]
    norm_num
    rw [u16_eq_add a5 h4]
    simp only [tableField, u16le, List.getD_cons_zero, List.getD_cons_succ,
      decide_eq_true_eq, Bool.or_eq_true]
    have r3 : pyRound3 ((a3 : ℚ) * 16) = (a3 : ℚ) * 16 :=
      pyRound3_eq_self_of_intCast ((a3 : ℤ) * 16) (by push_cast; ring)
    rw [r3]
    all_goals and_intros <;> first | rfl | trivial
  rcases eq_or_ne pgn 65266 with rfl | p5
  · simp only [decodeSignals, tableSignals]
    norm_num
    rw [u16_eq_add a1 h0, u16_eq_add a5 h4]
    simp only [tableField, u16le, List.getD_cons_zero, List.getD_cons_succ,
      decide_eq_true_eq, Bool.or_eq_true]
    all_goals and_intros <;> first | rfl | trivial
  rcases eq_or_ne pgn 65276 with rfl | p6
  · simp only [decodeSignals, tableSignals]
    norm_num
    simp only [tableField, List.getD_cons_zero, List.getD_cons_succ,
      decide_eq_true_eq]
  rcases eq_or_ne pgn 61443 with rfl | p7
  · simp only [decodeSignals, tableSignals]
    norm_num
  simp [decodeSignals, tableSignals, p1, p2, p3, p4, p5, p6, p7]

/-- PGNs outside the table map to no fields at all. -/
theorem tableSignals_not_supported (p : Nat) (b : List Nat)
    (h : p ∉ supportedPGNs) : tableSignals p b = [] := by
  simp only [supportedPGNs, List.mem_cons, List.not_mem_nil, or_false] at h
  push_neg at h
  obtain ⟨n1, n2, n3, n4, n5, n6, n7⟩ := h
  simp [tableSignals, n1, n2, n3, n4, n5, n6, n7]

/-- C1: for every frame whose identifier parses, the decoder emits exactly
the fields the §4.1 table lists for the frame's PGN — each read from the
listed byte indices of the 8-byte right-zero-padded payload, transformed by
the listed formula and rounded to three decimals except Engine Load, with
"N/A" whenever a byte of the field's range is `0xFF` — and for a PGN not in
the table the signal mapping is empty while `pgn` and `sa` are still
reported. -/
theorem decode_frame_matches_table (fr : Frame) (id : Int)
    (hid : pyIntHex fr.id_hex = some id)
    (hlen : fr.data.length ≤ 8)
    (hbytes : ∀ x ∈ fr.data, x < 256) :
    ∃ p : Nat, (decode_frame fr).pgn = some p ∧
      (decode_frame fr).sa = some ((id.emod 256).toNat) ∧
      (decode_frame fr).decoded = tableSignals p (paddedData fr) ∧
      (p ∉ supportedPGNs → (decode_frame fr).decoded = []) := by
  have hplen : (paddedData fr).length = 8 := by
    simp only [paddedData, List.length_append, List.length_replicate]
    omega
  have hpbytes : ∀ x ∈ paddedData fr, x < 256 := by
    intro x hx
    rcases List.mem_append.mp hx with h | h
    · exact hbytes x h
    · rw [List.eq_of_mem_replicate h]
      norm_num
  refine ⟨(if 240 ≤ ((id.fdiv 65536).emod 256).toNat then
        (((id.fdiv 65536).emod 256).toNat <<< 8) |||
          ((id.fdiv 256).emod 256).toNat
      else ((id.fdiv 65536).emod 256).toNat <<< 8), ?_, ?_, ?_, ?_⟩
  · simp only [decode_frame, hid]
  · simp only [decode_frame, hid]
  · simp only [decode_frame, hid]
    exact decodeSignals_eq_tableSignals _ _ hplen hpbytes
  · intro hns
    simp only [decode_frame, hid]
    rw [decodeSignals_eq_tableSignals _ _ hplen hpbytes,
      tableSignals_not_supported _ _ hns]

/-- Witness for C1: the Engine Hours frame of the specification's test
vector (identifier `18FEE5FF`, payload `A0860100FFFFFFFF`). -/
theorem decode_frame_matches_table_witness :
    ∃ p : Nat,
      (decode_frame (Frame.mk 0 "18FEE5FF"
          [0xA0, 0x86, 0x01, 0x00, 0xFF, 0xFF, 0xFF, 0xFF])).pgn = some p ∧
      (decode_frame (Frame.mk 0 "18FEE5FF"
          [0xA0, 0x86, 0x01, 0x00, 0xFF, 0xFF, 0xFF, 0xFF])).sa
        = some (((419358207 : Int).emod 256).toNat) ∧
      (decode_frame (Frame.mk 0 "18FEE5FF"
          [0xA0, 0x86, 0x01, 0x00, 0xFF, 0xFF, 0xFF, 0xFF])).decoded
        = tableSignals p (paddedData (Frame.mk 0 "18FEE5FF"
            [0xA0, 0x86, 0x01, 0x00, 0xFF, 0xFF, 0xFF, 0xFF])) ∧
      (p ∉ supportedPGNs →
        (decode_frame (Frame.mk 0 "18FEE5FF"
            [0xA0, 0x86, 0x01, 0x00, 0xFF, 0xFF, 0xFF, 0xFF])).decoded = []) :=
  decode_frame_matches_table
    (Frame.mk 0 "18FEE5FF" [0xA0, 0x86, 0x01, 0x00, 0xFF, 0xFF, 0xFF, 0xFF])
    419358207 (by decide) (by norm_num) (by decide)
